import Mathlib

deriving instance DecidableEq for Except

/-!
Shallow embedding of the Virtual-AI backend core: the job repository
(`app/crud/crud_job.py`, `app/db/models.py`, `app/api/v1/schemas/generate.py`)
and the upstream image client (`app/services/openrouter_service.py`).

Conventions of the embedding:
* machine bytes are `List Nat`; Python truthiness of a `bytes` value is
  `¬ isEmpty`, of a `str` value is `¬ isEmpty`, of `None` is false;
* Python exceptions raised by the service functions are `Except` errors of
  type `UpstreamError` (the two domain exception classes of the source);
* external library calls (`requests.get`, `base64.b64decode`, the two
  OpenAI-client calls) are supplied by an environment record `Env`, so the
  embedded functions are the source's control flow over those oracles;
* SQLAlchemy sessions are modelled as an explicit `DB` state (a job list plus
  a fresh-id counter standing for autoincrement/uuid4 assignment); the
  `onupdate` timestamp refresh is modelled as taking a `now` argument.
-/

namespace VirtualAI

/-- JobStatus mirrors `app/db/models.py` `class JobStatus(str, enum.Enum)`. -/
inductive JobStatus where
  | PENDING
  | PROCESSING
  | COMPLETED
  | FAILED
deriving DecidableEq, Repr

/-- GenerationJob mirrors the `generation_jobs` table of `app/db/models.py`.
`status` is an `Option` because the column is nullable (its value is filled
with the `PENDING` default at insert); `uuid` and `id` are drawn from the
`DB` counter, standing for the autoincrement key and the `uuid4` default. -/
structure GenerationJob where
  id : Nat
  uuid : Nat
  prompt : String
  status : Option JobStatus
  initial_image_key : String
  reference_image_key : Option String
  generated_image_key : Option String
  created_at : Nat
  updated_at : Nat
deriving DecidableEq, Repr

/-- JobCreate mirrors the creation schema of `app/api/v1/schemas/generate.py`
(prompt and initial key required, reference key optional). -/
structure JobCreate where
  prompt : String
  initial_image_key : String
  reference_image_key : Option String
deriving DecidableEq, Repr

/-- JobUpdate mirrors the update schema together with Pydantic
`model_dump(exclude_unset=True)` set-tracking: the outer `Option` is
whether the field was explicitly set, the inner one is the nullable value. -/
structure JobUpdate where
  status : Option (Option JobStatus) := none
  generated_image_key : Option (Option String) := none
deriving DecidableEq, Repr

/-- DB models the job table: the stored rows plus a counter from which the
next primary key and uuid are assigned. -/
structure DB where
  jobs : List GenerationJob
  nextId : Nat
deriving DecidableEq, Repr

/-- create_job mirrors `crud_job.create_job`: builds a row from the schema
fields, letting the column defaults fill `status := PENDING` and leave
`generated_image_key` NULL, and appends it to the table. -/
def create_job (db : DB) (job_in : JobCreate) (now : Nat) : DB × GenerationJob :=
  let db_job : GenerationJob :=
    { id := db.nextId
      uuid := db.nextId
      prompt := job_in.prompt
      status := some JobStatus.PENDING
      initial_image_key := job_in.initial_image_key
      reference_image_key := job_in.reference_image_key
      generated_image_key := none
      created_at := now
      updated_at := now }
  ({ jobs := db.jobs ++ [db_job], nextId := db.nextId + 1 }, db_job)

/-- get_job_by_uuid mirrors `crud_job.get_job_by_uuid`: first row whose
uuid matches. -/
def get_job_by_uuid (db : DB) (job_uuid : Nat) : Option GenerationJob :=
  db.jobs.find? (fun j => j.uuid == job_uuid)

/-- update_job mirrors `crud_job.update_job`: apply exactly the explicitly
set fields of the schema to the given row.  The `updated_at` column refresh
(`onupdate=func.now()`) fires only when an UPDATE is actually emitted,
i.e. when at least one field was applied. -/
def update_job (db_job : GenerationJob) (job_in : JobUpdate) (now : Nat) : GenerationJob :=
  let j1 := match job_in.status with
    | some v => { db_job with status := v }
    | none => db_job
  let j2 := match job_in.generated_image_key with
    | some v => { j1 with generated_image_key := v }
    | none => j1
  if job_in.status.isSome || job_in.generated_image_key.isSome then
    { j2 with updated_at := now }
  else
    j2

/-- delete_job mirrors `crud_job.delete_job`: remove the row if present and
return it, returning `none` (a no-op) when it is absent. -/
def delete_job (db : DB) (job_uuid : Nat) : DB × Option GenerationJob :=
  match get_job_by_uuid db job_uuid with
  | none => (db, none)
  | some job =>
    ({ db with jobs := db.jobs.filter (fun j => !(j.uuid == job_uuid)) }, some job)

/-- update_job_status mirrors `crud_job.update_job_status`: fetch by uuid,
assign the new status unconditionally, assign the generated key only when
one was passed, refresh the timestamp, and write the row back. -/
def update_job_status (db : DB) (job_uuid : Nat) (new_status : JobStatus)
    (generated_key : Option String) (now : Nat) : DB × Option GenerationJob :=
  match get_job_by_uuid db job_uuid with
  | none => (db, none)
  | some job =>
    let job' : GenerationJob :=
      { job with
        status := some new_status
        generated_image_key :=
          match generated_key with
          | some k => some k
          | none => job.generated_image_key
        updated_at := now }
    ({ db with jobs := db.jobs.map (fun j => if j.uuid == job_uuid then job' else j) },
     some job')

/-! Upstream image client, from `app/services/openrouter_service.py`. -/

/-- Bytes stands for a Python `bytes` value. -/
abbrev Bytes := List Nat

/-- UpstreamError holds the two domain exception classes of
`openrouter_service.py`: `ImageGenerationError` (actionable, non-retryable)
and `UpstreamUnavailable` (transient, retried). -/
inductive UpstreamError where
  | imageGenerationError (msg : String)
  | upstreamUnavailable (msg : String)
deriving DecidableEq, Repr

/-- ContentPart is one element of the user message content list built by
`_build_messages`: either the text part or an image-reference part. -/
inductive ContentPart where
  | text (s : String)
  | image_url (url : String)
deriving DecidableEq, Repr

/-- Message is one chat message (role plus content part list). -/
structure Message where
  role : String
  content : List ContentPart
deriving DecidableEq, Repr

/-- strOptTruthy is Python truthiness of an `Optional[str]`: `None` and the
empty string are falsy. -/
def strOptTruthy : Option String → Bool
  | none => false
  | some s => !s.isEmpty

/-- build_messages mirrors `_build_messages`: a single user message whose
content starts with the text part and appends an image part for each of
`initial_url` and `reference_url` that is truthy, in that order. -/
def build_messages (prompt : String) (initial_url reference_url : Option String) :
    List Message :=
  let content : List ContentPart := [ContentPart.text prompt]
  let content := match initial_url with
    | some u => if u.isEmpty then content else content ++ [ContentPart.image_url u]
    | none => content
  let content := match reference_url with
    | some u => if u.isEmpty then content else content ++ [ContentPart.image_url u]
    | none => content
  [{ role := "user", content := content }]

/-- charNonSpace is the regex class `\S` over the ASCII whitespace that
Python's `re` treats as `\s` (space, tab, newline, return, vtab, formfeed). -/
def charNonSpace (c : Char) : Bool :=
  !(c == ' ' || c == '\t' || c == '\n' || c == '\r' ||
    c == Char.ofNat 11 || c == Char.ofNat 12)

/-- takeNonSpace is the greedy `\S+` tail of a match: the maximal leading run
of non-whitespace characters. -/
def takeNonSpace : List Char → List Char
  | [] => []
  | c :: rest => if charNonSpace c then c :: takeNonSpace rest else []

/-- matchUrlAt tries the regex `https?://\S+` anchored at the head of the
character list: the literal scheme (greedy `s?` with backtracking collapses
to trying `https://` then `http://`) followed by at least one
non-whitespace character. -/
def matchUrlAt (cs : List Char) : Option (List Char) :=
  let tryScheme (scheme : List Char) : Option (List Char) :=
    if cs.take scheme.length = scheme then
      let run := takeNonSpace (cs.drop scheme.length)
      if run.isEmpty then none else some (scheme ++ run)
    else none
  match tryScheme "https://".data with
  | some m => some m
  | none => tryScheme "http://".data

/-- extractUrlAux scans left to right for the first position where the URL
pattern matches, as `re.search` does. -/
def extractUrlAux : List Char → Option (List Char)
  | [] => none
  | c :: rest =>
    match matchUrlAt (c :: rest) with
    | some m => some m
    | none => extractUrlAux rest

/-- extract_url_from_text mirrors `_extract_url_from_text`:
`re.search(r"https?://\S+", text)`, first match or `None`. -/
def extract_url_from_text (s : String) : Option String :=
  (extractUrlAux s.data).map (fun cs => String.mk cs)

/-- Part is a content part of the primary response, as read through `_get`:
the `type` field, the `url` reachable inside the `image_url` container
(outer `none`: no container; inner `none`: container without a url), and
the two inline base64 fields.  Non-string url or base64 values, whose
library calls raise, are covered by the failing cases of the `Env` oracles. -/
structure Part where
  type : Option String := none
  image_url : Option (Option String) := none
  b64_json : Option String := none
  b64 : Option String := none
deriving DecidableEq, Repr

/-- Json is the generic nested structure that `_deep_find_image_payload`
walks after `model_dump()` of the fallback response. -/
inductive Json where
  | str (s : String)
  | num (n : Int)
  | bool (b : Bool)
  | null
  | arr (items : List Json)
  | obj (fields : List (String × Json))

/-- truthy is Python truthiness of a decoded JSON value. -/
def Json.truthy : Json → Bool
  | Json.str s => !s.isEmpty
  | Json.num n => n != 0
  | Json.bool b => b
  | Json.null => false
  | Json.arr xs => !xs.isEmpty
  | Json.obj fs => !fs.isEmpty

/-- jsonGet is `dict.get`: value of the first field with the given key. -/
def jsonGet (fs : List (String × Json)) (k : String) : Option Json :=
  match fs.find? (fun f => f.1 == k) with
  | some f => some f.2
  | none => none

/-- CallResult is the outcome of one OpenAI-client call: the `NotFoundError`
branch, any other raised exception, or a returned value. -/
inductive CallResult (α : Type) where
  | notFoundError
  | otherError
  | ok (a : α)

/-- ChatContent is the shape of `resp.choices[0].message.content` of the
primary call: a plain string, a parts list, anything else (including the
`None` default of `getattr`), or the access itself raising. -/
inductive ChatContent where
  | text (s : String)
  | parts (ps : List Part)
  | other
  | malformed

/-- FetchResp is the `requests.Response` data `_fetch_bytes_from_url`
inspects: status code and body bytes. -/
structure FetchResp where
  status_code : Nat
  content : Bytes
deriving DecidableEq, Repr

/-- Env carries the external collaborators of one resolution attempt:
the HTTP GET used for image URLs, base64 decoding (`none` meaning
`b64decode` raised), the primary chat call, and the fallback responses
call (whose payload is `none` when both `model_dump()` and `__dict__`
failed, leaving `data2 = None`). -/
structure Env where
  httpGet : String → FetchResp
  b64decode : String → Option Bytes
  chat : CallResult ChatContent
  responses : CallResult (Option Json)

/-- fetch_bytes_from_url mirrors `_fetch_bytes_from_url`: 429 or 5xx raise
`UpstreamUnavailable`, any other status of at least 400 raises
`ImageGenerationError`, anything below 400 returns the body. -/
def fetch_bytes_from_url (env : Env) (url : String) : Except UpstreamError Bytes :=
  let resp := env.httpGet url
  if resp.status_code = 429 ∨ (500 ≤ resp.status_code ∧ resp.status_code < 600) then
    Except.error (UpstreamError.upstreamUnavailable
      ("Upstream URL fetch failed: " ++ toString resp.status_code))
  else if 400 ≤ resp.status_code then
    Except.error (UpstreamError.imageGenerationError
      ("Failed to fetch image URL: " ++ toString resp.status_code))
  else
    Except.ok resp.content

/-- decode_b64 mirrors `_decode_b64`: a decode failure becomes
`ImageGenerationError`. -/
def decode_b64 (env : Env) (data_b64 : String) : Except UpstreamError Bytes :=
  match env.b64decode data_b64 with
  | some b => Except.ok b
  | none => Except.error (UpstreamError.imageGenerationError
      "Failed to decode base64 image from upstream")

/-- partUrl is the url reachable inside the part's `image_url` container. -/
def partUrl (part : Part) : Option String :=
  match part.image_url with
  | some u => u
  | none => none

/-- extract_bytes_from_part mirrors `_extract_bytes_from_part`: for an
image-typed part with a truthy url, fetch it (errors propagate); otherwise
take the first truthy of `b64_json`/`b64` and decode it (decode errors
propagate); otherwise yield nothing. -/
def extract_bytes_from_part (env : Env) (part : Part) :
    Except UpstreamError (Option Bytes) :=
  let fetchUrl : Option String :=
    if part.type == some "image_url" || part.type == some "output_image" then
      match partUrl part with
      | some u => if u.isEmpty then none else some u
      | none => none
    else none
  match fetchUrl with
  | some u => Except.map some (fetch_bytes_from_url env u)
  | none =>
    let b64_data := if strOptTruthy part.b64_json then part.b64_json else part.b64
    match b64_data with
    | some s =>
      if s.isEmpty then Except.ok none
      else Except.map some (decode_b64 env s)
    | none => Except.ok none

/-- extract_bytes_from_parts mirrors `_extract_bytes_from_parts`: scan the
parts in order, return the first truthy payload, and `continue` past any
part whose extraction raised (`except Exception`) or yielded nothing. -/
def extract_bytes_from_parts (env : Env) : List Part → Option Bytes
  | [] => none
  | part :: rest =>
    match extract_bytes_from_part env part with
    | Except.ok (some data) =>
      if data.isEmpty then extract_bytes_from_parts env rest else some data
    | Except.ok none => extract_bytes_from_parts env rest
    | Except.error _ => extract_bytes_from_parts env rest

/-- objDirectStep is the head of the `obj` case of
`_deep_find_image_payload`: the `b64_json` then `image_url` checks.
`some r` means the node returns `r` right away (`r = none` when an
exception was swallowed by the node's catch-all, abandoning the node);
`none` means fall through to the loop over the values. -/
def objDirectStep (env : Env) (fs : List (String × Json)) : Option (Option Bytes) :=
  let urlStep : Option (Option Bytes) :=
    match jsonGet fs "image_url" with
    | some c =>
      if c.truthy then
        match c with
        | Json.obj cfs =>
          (match jsonGet cfs "url" with
           | some u =>
             if u.truthy then
               some (match u with
                     | Json.str us =>
                       (match fetch_bytes_from_url env us with
                        | Except.ok b => some b
                        | Except.error _ => none)
                     | _ => none)
             else none
           | none => none)
        | _ => none
      else none
    | none => none
  match jsonGet fs "b64_json" with
  | some v =>
    if v.truthy then
      some (match v with
            | Json.str s =>
              (match env.b64decode s with
               | some b => some b
               | none => none)
            | _ => none)
    else urlStep
  | none => urlStep

mutual

/-- deep_find_image_payload mirrors `_deep_find_image_payload`: at a
mapping, try the `b64_json` and `image_url` shortcuts (any exception makes
the node yield nothing), else recurse depth-first into all values; at a
sequence recurse into the elements; first truthy result wins. -/
def deep_find_image_payload (env : Env) : Json → Option Bytes
  | Json.obj fs =>
    (match objDirectStep env fs with
     | some r => r
     | none => deepFindFields env fs)
  | Json.arr xs => deepFindList env xs
  | Json.str _ => none
  | Json.num _ => none
  | Json.bool _ => none
  | Json.null => none

/-- deepFindFields is the `for v in obj.values()` loop of the search. -/
def deepFindFields (env : Env) : List (String × Json) → Option Bytes
  | [] => none
  | (_, v) :: rest =>
    (match deep_find_image_payload env v with
     | some b => if b.isEmpty then deepFindFields env rest else some b
     | none => deepFindFields env rest)

/-- deepFindList is the `for v in obj` loop over a sequence. -/
def deepFindList (env : Env) : List Json → Option Bytes
  | [] => none
  | x :: rest =>
    (match deep_find_image_payload env x with
     | some b => if b.isEmpty then deepFindList env rest else some b
     | none => deepFindList env rest)

end

/-- responses_fallback mirrors `_responses_fallback`: `NotFoundError`
becomes the actionable model-not-available error, any other call failure
the transient one, and a returned payload is handed to the deep search
(yielding nothing when serialization produced `None`). -/
def responses_fallback (env : Env) : Except UpstreamError (Option Bytes) :=
  match env.responses with
  | CallResult.notFoundError =>
    Except.error (UpstreamError.imageGenerationError
      "Model not available for image output")
  | CallResult.otherError =>
    Except.error (UpstreamError.upstreamUnavailable
      "OpenRouter responses call failed")
  | CallResult.ok none => Except.ok none
  | CallResult.ok (some j) => Except.ok (deep_find_image_payload env j)

/-- finish_with_fallback is the tail of `_sync_request_and_extract_bytes`
after the primary call produced no payload: run the responses fallback,
return its payload when truthy, and otherwise raise the final
no-image-payload error.  The Boolean in the result records that the
fallback request was issued. -/
def finish_with_fallback (env : Env) : Except UpstreamError Bytes × Bool :=
  match responses_fallback env with
  | Except.error e => (Except.error e, true)
  | Except.ok (some found) =>
    if found.isEmpty then
      (Except.error (UpstreamError.imageGenerationError
        "Upstream did not include an image payload"), true)
    else (Except.ok found, true)
  | Except.ok none =>
    (Except.error (UpstreamError.imageGenerationError
      "Upstream did not include an image payload"), true)

/-- sync_request_and_extract_bytes mirrors the inner
`_sync_request_and_extract_bytes` of `generate_image`: classify the primary
call, resolve string content through URL extraction and fetch, resolve list
content through the parts scan, and fall back to the responses call when no
payload was found.  The Boolean records whether the fallback was issued. -/
def sync_request_and_extract_bytes (env : Env) : Except UpstreamError Bytes × Bool :=
  match env.chat with
  | CallResult.notFoundError =>
    (Except.error (UpstreamError.imageGenerationError
      "Model not available. Check model name or your access."), false)
  | CallResult.otherError =>
    (Except.error (UpstreamError.upstreamUnavailable
      "OpenRouter request failed"), false)
  | CallResult.ok content =>
    match content with
    | ChatContent.malformed =>
      (Except.error (UpstreamError.imageGenerationError
        "Malformed response from upstream: missing message content"), false)
    | ChatContent.text s =>
      (match extract_url_from_text s with
       | none =>
         (Except.error (UpstreamError.imageGenerationError
           "Upstream returned text content without an image URL"), false)
       | some url => (fetch_bytes_from_url env url, false))
    | ChatContent.parts ps =>
      (match extract_bytes_from_parts env ps with
       | some found =>
         if found.isEmpty then finish_with_fallback env else (Except.ok found, false)
       | none => finish_with_fallback env)
    | ChatContent.other => finish_with_fallback env

/-- FinalOutcome is what a caller of `generate_image` observes once the
tenacity wrapper finishes: returned bytes, a re-raised domain exception, or
tenacity's own `RetryError` wrapping the last transient failure (the
decorator is declared without `reraise=True`, so exhaustion raises
`RetryError`, not the wrapped exception). -/
inductive FinalOutcome where
  | ok (b : Bytes)
  | raised (e : UpstreamError)
  | retryError (lastMsg : String)
deriving DecidableEq, Repr

/-- retryLoop is the tenacity `Retrying` loop for
`stop=stop_after_attempt(3)`, `retry=retry_if_exception_type(UpstreamUnavailable)`
and the default `reraise=False`: success returns, a non-retryable exception
is re-raised as itself, and a transient failure either retries or, once the
attempt budget is spent, raises `RetryError` around the last attempt.
The backoff waits only affect timing, not the surfaced value. -/
def retryLoop (f : Nat → Except UpstreamError Bytes) (i : Nat) (remaining : Nat) :
    FinalOutcome :=
  match f i with
  | Except.ok b => FinalOutcome.ok b
  | Except.error (UpstreamError.imageGenerationError m) =>
    FinalOutcome.raised (UpstreamError.imageGenerationError m)
  | Except.error (UpstreamError.upstreamUnavailable m) =>
    match remaining with
    | 0 => FinalOutcome.retryError m
    | r + 1 => if r = 0 then FinalOutcome.retryError m else retryLoop f (i + 1) r

/-- generate_image mirrors the decorated `generate_image`: run the full
two-call resolution once per attempt, at most 3 attempts, with the
environment of attempt `i` given by `envs i`. -/
def generate_image (envs : Nat → Env) : FinalOutcome :=
  retryLoop (fun i => (sync_request_and_extract_bytes (envs i)).1) 0 3

/-! Theorems. -/

/-- C6: for every URL fetch of an image reference, HTTP status 429 or any
5xx fails with the transient `UpstreamUnavailable`, any other status of at
least 400 fails with the actionable `ImageGenerationError`, and any status
below 400 returns the response body bytes. -/
theorem C6_url_fetch_classification (env : Env) (url : String) (st : Nat) (body : Bytes)
    (h : env.httpGet url = ⟨st, body⟩) :
    ((st = 429 ∨ (500 ≤ st ∧ st < 600)) →
      fetch_bytes_from_url env url =
        Except.error (UpstreamError.upstreamUnavailable
          ("Upstream URL fetch failed: " ++ toString st)))
  ∧ ((st ≠ 429 ∧ ¬(500 ≤ st ∧ st < 600) ∧ 400 ≤ st) →
      fetch_bytes_from_url env url =
        Except.error (UpstreamError.imageGenerationError
          ("Failed to fetch image URL: " ++ toString st)))
  ∧ (st < 400 → fetch_bytes_from_url env url = Except.ok body) := by
  simp only [fetch_bytes_from_url, h]
  refine ⟨fun hc => ?_, fun hc => ?_, fun hc => ?_⟩
  · rw [if_pos hc]
  · rw [if_neg (by omega), if_pos (by omega)]
  · rw [if_neg (by omega), if_neg (by omega)]

/-- C6 witness: concrete statuses 503 (transient), 404 (actionable) and
200 (body returned). -/
def c6env : Env :=
  { httpGet := fun u =>
      if u = "a" then ⟨503, []⟩ else if u = "b" then ⟨404, []⟩ else ⟨200, [9]⟩
    b64decode := fun _ => none
    chat := CallResult.otherError
    responses := CallResult.otherError }

/-- Witness for C6 at statuses 503, 404 and 200. -/
theorem C6_url_fetch_classification_witness :
    fetch_bytes_from_url c6env "a" =
      Except.error (UpstreamError.upstreamUnavailable
        ("Upstream URL fetch failed: " ++ toString 503))
  ∧ fetch_bytes_from_url c6env "b" =
      Except.error (UpstreamError.imageGenerationError
        ("Failed to fetch image URL: " ++ toString 404))
  ∧ fetch_bytes_from_url c6env "c" = Except.ok [9] :=
  ⟨(C6_url_fetch_classification c6env "a" 503 [] rfl).1 (by omega),
   (C6_url_fetch_classification c6env "b" 404 [] rfl).2.1 (by omega),
   (C6_url_fetch_classification c6env "c" 200 [9] rfl).2.2 (by omega)⟩

/-- C7: for every prompt and every combination of present/absent initial
and reference URLs, the primary request is a single user message whose
content is exactly the text part with the prompt, then an image part for
the initial URL when it is present (truthy), then one for the reference
URL when it is present, and nothing else. -/
theorem C7_build_messages_shape (prompt : String) (initial_url reference_url : Option String) :
    build_messages prompt initial_url reference_url =
      [{ role := "user",
         content := [ContentPart.text prompt]
           ++ (if strOptTruthy initial_url then
                 [ContentPart.image_url (initial_url.getD "")] else [])
           ++ (if strOptTruthy reference_url then
                 [ContentPart.image_url (reference_url.getD "")] else []) }] := by
  rcases initial_url with _ | u
  · rcases reference_url with _ | v
    · simp [build_messages, strOptTruthy]
    · cases hv : v.isEmpty <;> simp [build_messages, strOptTruthy, hv]
  · rcases reference_url with _ | v
    · cases hu : u.isEmpty <;> simp [build_messages, strOptTruthy, hu]
    · cases hu : u.isEmpty <;> cases hv : v.isEmpty <;>
        simp [build_messages, strOptTruthy, hu, hv]

/-- C9: the update operation applies only explicitly-set fields, leaves
unset fields untouched, and an update with an empty field set leaves the
job unchanged (in particular unchanged up to possibly `updatedAt`). -/
theorem C9_partial_update_frame (job : GenerationJob) (upd : JobUpdate) (now : Nat) :
    (upd.status = none → (update_job job upd now).status = job.status)
  ∧ (upd.generated_image_key = none →
      (update_job job upd now).generated_image_key = job.generated_image_key)
  ∧ (update_job job upd now).prompt = job.prompt
  ∧ (update_job job upd now).id = job.id
  ∧ (update_job job upd now).uuid = job.uuid
  ∧ (update_job job upd now).initial_image_key = job.initial_image_key
  ∧ (update_job job upd now).reference_image_key = job.reference_image_key
  ∧ (update_job job upd now).created_at = job.created_at
  ∧ (upd.status = none → upd.generated_image_key = none →
      update_job job upd now = job) := by
  obtain ⟨s, k⟩ := upd
  cases s <;> cases k <;> simp [update_job]

/-- Witness job for C9. -/
def c9job : GenerationJob :=
  { id := 3, uuid := 5, prompt := "q", status := some JobStatus.PENDING,
    initial_image_key := "a", reference_image_key := some "r",
    generated_image_key := none, created_at := 1, updated_at := 2 }

/-- Witness for C9: the empty update leaves the concrete job unchanged. -/
theorem C9_partial_update_frame_witness : update_job c9job {} 42 = c9job :=
  (C9_partial_update_frame c9job {} 42).2.2.2.2.2.2.2.2 rfl rfl

/-- C10: the status-update helper called without a generated key changes
only the job's status and timestamp; every other field, the generated key
included, is carried over unchanged. -/
theorem C10_status_update_without_key_frame (db : DB) (u : Nat) (s : JobStatus)
    (now : Nat) (j : GenerationJob) (h : get_job_by_uuid db u = some j) :
    (update_job_status db u s none now).2 =
      some { j with status := some s, updated_at := now } := by
  simp [update_job_status, h]

/-- Witness job for C10: a job whose generated key is already set. -/
def c10job : GenerationJob :=
  { id := 0, uuid := 0, prompt := "p", status := some JobStatus.PROCESSING,
    initial_image_key := "i", reference_image_key := none,
    generated_image_key := some "g", created_at := 0, updated_at := 0 }

/-- Witness table for C10. -/
def c10db : DB := { jobs := [c10job], nextId := 1 }

/-- Witness for C10: marking the job Failed without a key leaves the key
already set in place. -/
theorem C10_status_update_without_key_frame_witness :
    (update_job_status c10db 0 JobStatus.FAILED none 8).2 =
      some { c10job with status := some JobStatus.FAILED, updated_at := 8 } :=
  C10_status_update_without_key_frame c10db 0 JobStatus.FAILED 8 c10job rfl

/-- Helper for C8: a freshly appended row with a uuid no existing row
carries is the one `find?` returns. -/
theorem find_fresh_append (n : Nat) (nj : GenerationJob) (hn : nj.uuid = n) :
    ∀ l : List GenerationJob, (∀ j ∈ l, j.uuid ≠ n) →
      List.find? (fun j => j.uuid == n) (l ++ [nj]) = some nj := by
  intro l
  induction l with
  | nil => intro _; simp [List.find?, hn]
  | cons a t ih =>
    intro h
    have ha : (a.uuid == n) = false := by
      simp only [beq_eq_false_iff_ne, ne_eq]
      exact h a (List.mem_cons_self a t)
    simp only [List.cons_append, List.find?_cons, ha]
    exact ih (fun j hj => h j (List.mem_cons_of_mem a hj))

/-- C8: for every valid creation input (non-empty prompt, initial key,
optional reference key), creating a job and immediately fetching it by its
id returns a job whose status is Pending and whose generated key is unset. -/
theorem C8_create_then_get (db : DB) (inp : JobCreate) (now : Nat)
    (_hp : inp.prompt ≠ "")
    (hfresh : ∀ j ∈ db.jobs, j.uuid ≠ db.nextId) :
    get_job_by_uuid (create_job db inp now).1 (create_job db inp now).2.uuid =
      some (create_job db inp now).2
  ∧ (create_job db inp now).2.status = some JobStatus.PENDING
  ∧ (create_job db inp now).2.generated_image_key = none := by
  refine ⟨?_, rfl, rfl⟩
  exact find_fresh_append db.nextId _ rfl db.jobs hfresh

/-- Witness for C8 on the empty table. -/
theorem C8_create_then_get_witness :
    ("hi" : String) ≠ ""
  ∧ get_job_by_uuid (create_job ⟨[], 0⟩ ⟨"hi", "init", none⟩ 7).1
        (create_job ⟨[], 0⟩ ⟨"hi", "init", none⟩ 7).2.uuid =
      some (create_job ⟨[], 0⟩ ⟨"hi", "init", none⟩ 7).2
  ∧ (create_job ⟨[], 0⟩ ⟨"hi", "init", none⟩ 7).2.status = some JobStatus.PENDING
  ∧ (create_job ⟨[], 0⟩ ⟨"hi", "init", none⟩ 7).2.generated_image_key = none :=
  ⟨by decide,
   C8_create_then_get ⟨[], 0⟩ ⟨"hi", "init", none⟩ 7 (by decide)
     (fun j hj => absurd hj (List.not_mem_nil j))⟩

/-- job_invariant is the spec's invariant
`status = Completed ⇔ generatedImageKey is set`. -/
def job_invariant (j : GenerationJob) : Prop :=
  j.status = some JobStatus.COMPLETED ↔ j.generated_image_key ≠ none

/-- Counterexample job for C2: a Pending row with no generated key. -/
def c2job : GenerationJob :=
  { id := 0, uuid := 0, prompt := "p", status := some JobStatus.PENDING,
    initial_image_key := "i", reference_image_key := none,
    generated_image_key := none, created_at := 0, updated_at := 0 }

/-- Counterexample table for C2. -/
def c2db : DB := { jobs := [c2job], nextId := 1 }

/-- C2 counterexample: a single `update_job_status` call with status
Completed and no key produces a Completed job whose generated key is
unset, so the repository operations do not enforce the biconditional. -/
theorem C2_counterexample :
    (update_job_status c2db 0 JobStatus.COMPLETED none 5).2.map
        (fun j => (j.status, j.generated_image_key)) =
      some (some JobStatus.COMPLETED, (none : Option String)) := rfl

/-- C2 (amended): creation establishes the invariant, and the status-update
helper preserves it provided Completed updates carry a key and
non-Completed updates carry no key and are not applied to an
already-Completed job; unconditioned, the operations do not enforce it. -/
theorem C2_invariant_conditional :
    (∀ db inp now, job_invariant (create_job db inp now).2)
  ∧ (∀ db u s k now j j',
      get_job_by_uuid db u = some j →
      job_invariant j →
      (s = JobStatus.COMPLETED → k ≠ none) →
      (s ≠ JobStatus.COMPLETED → k = none ∧ j.status ≠ some JobStatus.COMPLETED) →
      (update_job_status db u s k now).2 = some j' →
      job_invariant j') := by
  constructor
  · intro db inp now
    simp [job_invariant, create_job]
  · intro db u s k now j j' hget hinv hc hnc hupd
    simp only [update_job_status, hget, Option.some.injEq] at hupd
    subst hupd
    by_cases hs : s = JobStatus.COMPLETED
    · obtain ⟨g, hg⟩ := Option.ne_none_iff_exists'.mp (hc hs)
      subst hg
      simp [job_invariant, hs]
    · obtain ⟨hk, hjs⟩ := hnc hs
      subst hk
      have hkey : j.generated_image_key = none := by
        by_contra hne
        exact hjs (hinv.mpr hne)
      simp [job_invariant, hkey, hs]

/-- Witness job for C2: a Processing row with no key yet. -/
def c2wjob : GenerationJob :=
  { id := 0, uuid := 0, prompt := "p", status := some JobStatus.PROCESSING,
    initial_image_key := "i", reference_image_key := none,
    generated_image_key := none, created_at := 0, updated_at := 0 }

/-- Witness table for C2. -/
def c2wdb : DB := { jobs := [c2wjob], nextId := 1 }

/-- Witness result row for C2: Completed with the key attached. -/
def c2wjob' : GenerationJob :=
  { c2wjob with
    status := some JobStatus.COMPLETED
    generated_image_key := some "g"
    updated_at := 9 }

/-- Witness for C2: the invariant holds for a concrete created job and for
the concrete result of a Completed-with-key status update. -/
theorem C2_invariant_conditional_witness :
    job_invariant (create_job ⟨[], 0⟩ ⟨"p", "i", none⟩ 3).2 ∧ job_invariant c2wjob' :=
  ⟨C2_invariant_conditional.1 ⟨[], 0⟩ ⟨"p", "i", none⟩ 3,
   C2_invariant_conditional.2 c2wdb 0 JobStatus.COMPLETED (some "g") 9 c2wjob c2wjob'
     rfl
     (by unfold job_invariant; decide)
     (fun _ => by decide)
     (fun h => absurd rfl h)
     rfl⟩

/-- Counterexample job for C5: a Completed row with its key set. -/
def c5job : GenerationJob :=
  { id := 0, uuid := 0, prompt := "p", status := some JobStatus.COMPLETED,
    initial_image_key := "i", reference_image_key := none,
    generated_image_key := some "g", created_at := 0, updated_at := 0 }

/-- Counterexample table for C5. -/
def c5db : DB := { jobs := [c5job], nextId := 1 }

/-- C5 counterexample: a repository status update moves a Completed job
back to Pending, so Completed is not terminal under the repository
operations. -/
theorem C5_counterexample :
    get_job_by_uuid c5db 0 = some c5job
  ∧ c5job.status = some JobStatus.COMPLETED
  ∧ (update_job_status c5db 0 JobStatus.PENDING none 7).2.map (fun j => j.status) =
      some (some JobStatus.PENDING) := ⟨rfl, rfl, rfl⟩

/-- C5 (amended): the repository update operations set the status to
exactly the requested value regardless of the job's current status
(Completed and Failed included), so the lifecycle discipline is the
callers' responsibility, not enforced by the repository. -/
theorem C5_status_applied_unconditionally :
    (∀ db u s k now j, get_job_by_uuid db u = some j →
      (update_job_status db u s k now).2.map (fun x => x.status) = some (some s))
  ∧ (∀ job upd now v, upd.status = some v → (update_job job upd now).status = v) := by
  constructor
  · intro db u s k now j h
    simp [update_job_status, h]
  · intro job upd now v h
    obtain ⟨s?, k?⟩ := upd
    simp only [] at h
    subst h
    cases k? <;> simp [update_job]

/-- Witness for C5: the amended statement at a Completed job pushed back to
Processing by each update path. -/
theorem C5_status_applied_unconditionally_witness :
    (update_job_status c5db 0 JobStatus.PROCESSING none 4).2.map (fun x => x.status) =
      some (some JobStatus.PROCESSING)
  ∧ (update_job c5job { status := some (some JobStatus.PROCESSING) } 4).status =
      some JobStatus.PROCESSING :=
  ⟨C5_status_applied_unconditionally.1 c5db 0 JobStatus.PROCESSING none 4 c5job rfl,
   C5_status_applied_unconditionally.2 c5job
     { status := some (some JobStatus.PROCESSING) } 4 (some JobStatus.PROCESSING) rfl⟩

/-- Environment for C1 whose provider call fails transiently. -/
def envC1transient : Env :=
  { httpGet := fun _ => ⟨200, []⟩
    b64decode := fun _ => none
    chat := CallResult.otherError
    responses := CallResult.otherError }

/-- Environment for C1 whose provider call hits the model-not-found path. -/
def envC1actionable : Env := { envC1transient with chat := CallResult.notFoundError }

/-- Environment for C1 whose primary call yields a text URL that fetches
successfully. -/
def envC1success : Env :=
  { httpGet := fun _ => ⟨200, [1]⟩
    b64decode := fun _ => none
    chat := CallResult.ok (ChatContent.text "http://img")
    responses := CallResult.otherError }

/-- Attempt sequence for C1: two transient failures, then success. -/
def envsC1 : Nat → Env := fun i => if i < 2 then envC1transient else envC1success

/-- C1: evaluating `generate_image` at the failing input of the claim.
Three transient attempts surface tenacity's `RetryError` wrapper (the
decorator lacks `reraise=True`), not the last `UpstreamUnavailable`
itself; an actionable failure does return immediately as itself, and two
transients followed by a success succeed on the third attempt. -/
theorem C1_retry_engine_eval :
    generate_image (fun _ => envC1transient) =
      FinalOutcome.retryError "OpenRouter request failed"
  ∧ generate_image (fun _ => envC1actionable) =
      FinalOutcome.raised (UpstreamError.imageGenerationError
        "Model not available. Check model name or your access.")
  ∧ generate_image envsC1 = FinalOutcome.ok [1] := ⟨rfl, rfl, rfl⟩

/-- Counterexample environment for C3: the primary call answers with plain
text containing no URL. -/
def c3env : Env :=
  { httpGet := fun _ => ⟨200, []⟩
    b64decode := fun _ => none
    chat := CallResult.ok (ChatContent.text "there is no link in this reply")
    responses := CallResult.ok none }

/-- C3 counterexample: on plain-text content without a URL the attempt
fails immediately with the actionable text-without-URL error and the
fallback request is never issued (the flag is `false`), so the fallback is
not issued for every no-payload primary response. -/
theorem C3_counterexample :
    sync_request_and_extract_bytes c3env =
      (Except.error (UpstreamError.imageGenerationError
        "Upstream returned text content without an image URL"), false) := rfl

/-- Helper for C3: the post-primary tail always issues the fallback, and
ends in the final no-image-payload error exactly when the fallback
yielded nothing truthy. -/
theorem finish_with_fallback_spec (env : Env) :
    (finish_with_fallback env).2 = true
  ∧ ((finish_with_fallback env).1 =
        Except.error (UpstreamError.imageGenerationError
          "Upstream did not include an image payload")
      ↔ (responses_fallback env = Except.ok none ∨
         responses_fallback env = Except.ok (some ([] : Bytes)))) := by
  rcases henv : env.responses with _ | _ | p
  · have hr : responses_fallback env =
        Except.error (UpstreamError.imageGenerationError
          "Model not available for image output") := by
      simp [responses_fallback, henv]
    simp [finish_with_fallback, hr]
  · have hr : responses_fallback env =
        Except.error (UpstreamError.upstreamUnavailable
          "OpenRouter responses call failed") := by
      simp [responses_fallback, henv]
    simp [finish_with_fallback, hr]
  · rcases p with _ | j
    · have hr : responses_fallback env = Except.ok none := by
        simp [responses_fallback, henv]
      simp [finish_with_fallback, hr]
    · have hr : responses_fallback env =
          Except.ok (deep_find_image_payload env j) := by
        simp [responses_fallback, henv]
      rcases hd : deep_find_image_payload env j with _ | b
      · rw [hd] at hr
        simp [finish_with_fallback, hr]
      · rw [hd] at hr
        rcases hb : b.isEmpty with _ | _
        · have hbne : b ≠ [] := by
            intro hcontra; subst hcontra; simp at hb
          simp [finish_with_fallback, hr, hb, hbne]
        · have hbe : b = [] := List.isEmpty_iff.mp hb
          subst hbe
          simp [finish_with_fallback, hr]

/-- C3 (amended): the fallback responses request is issued exactly when
the primary content is a parts list from which nothing was extracted or is
neither text nor a parts list; plain text without a URL instead fails
immediately with the actionable text-without-URL error, and the final
no-image-payload error occurs exactly when the fallback was issued and
itself yielded nothing. -/
theorem C3_fallback_issue_conditions :
    (∀ env s, env.chat = CallResult.ok (ChatContent.text s) →
      extract_url_from_text s = none →
      sync_request_and_extract_bytes env =
        (Except.error (UpstreamError.imageGenerationError
          "Upstream returned text content without an image URL"), false))
  ∧ (∀ env ps, env.chat = CallResult.ok (ChatContent.parts ps) →
      extract_bytes_from_parts env ps = none →
      (sync_request_and_extract_bytes env).2 = true
      ∧ ((sync_request_and_extract_bytes env).1 =
            Except.error (UpstreamError.imageGenerationError
              "Upstream did not include an image payload")
          ↔ (responses_fallback env = Except.ok none ∨
             responses_fallback env = Except.ok (some ([] : Bytes)))))
  ∧ (∀ env, env.chat = CallResult.ok ChatContent.other →
      (sync_request_and_extract_bytes env).2 = true
      ∧ ((sync_request_and_extract_bytes env).1 =
            Except.error (UpstreamError.imageGenerationError
              "Upstream did not include an image payload")
          ↔ (responses_fallback env = Except.ok none ∨
             responses_fallback env = Except.ok (some ([] : Bytes))))) := by
  refine ⟨?_, ?_, ?_⟩
  · intro env s h1 h2
    simp [sync_request_and_extract_bytes, h1, h2]
  · intro env ps h1 h2
    have hred : sync_request_and_extract_bytes env = finish_with_fallback env := by
      simp [sync_request_and_extract_bytes, h1, h2]
    rw [hred]
    exact finish_with_fallback_spec env
  · intro env h1
    have hred : sync_request_and_extract_bytes env = finish_with_fallback env := by
      simp [sync_request_and_extract_bytes, h1]
    rw [hred]
    exact finish_with_fallback_spec env

/-- Witness environment for C3, text case. -/
def c3wtext : Env :=
  { httpGet := fun _ => ⟨200, []⟩
    b64decode := fun _ => none
    chat := CallResult.ok (ChatContent.text "hello world")
    responses := CallResult.ok none }

/-- Witness environment for C3, empty parts case. -/
def c3wparts : Env := { c3wtext with chat := CallResult.ok (ChatContent.parts []) }

/-- Witness for C3: a concrete text-without-URL attempt skips the fallback
and a concrete empty parts list triggers it. -/
theorem C3_fallback_issue_conditions_witness :
    sync_request_and_extract_bytes c3wtext =
      (Except.error (UpstreamError.imageGenerationError
        "Upstream returned text content without an image URL"), false)
  ∧ (sync_request_and_extract_bytes c3wparts).2 = true :=
  ⟨C3_fallback_issue_conditions.1 c3wtext "hello world" rfl (by decide),
   (C3_fallback_issue_conditions.2.1 c3wparts [] rfl rfl).1⟩

/-- Counterexample environment for C4: every URL fetch answers 503 and
every base64 decode yields one byte. -/
def c4env : Env :=
  { httpGet := fun _ => ⟨503, []⟩
    b64decode := fun _ => some [7]
    chat := CallResult.otherError
    responses := CallResult.ok none }

/-- Counterexample part for C4: an image-URL part whose fetch is the
transient 503 case. -/
def c4p1 : Part := { type := some "image_url", image_url := some (some "http://img") }

/-- Counterexample part for C4: a valid inline base64 part. -/
def c4p2 : Part := { b64_json := some "aGVsbG8=" }

/-- C4 counterexample: the first part raises the URL-fetch transient error,
yet the scan swallows it and returns the second part's payload instead of
propagating the failure. -/
theorem C4_counterexample :
    extract_bytes_from_part c4env c4p1 =
      Except.error (UpstreamError.upstreamUnavailable
        ("Upstream URL fetch failed: " ++ toString 503))
  ∧ extract_bytes_from_parts c4env [c4p1, c4p2] = some [7] := ⟨rfl, rfl⟩

/-- C4 (amended): every part whose extraction errors is skipped and the
scan continues with the rest — the URL-fetch transient and actionable
errors included; no error propagates out of the scan. -/
theorem C4_erroring_part_skipped (env : Env) (p : Part) (rest : List Part)
    (e : UpstreamError) (h : extract_bytes_from_part env p = Except.error e) :
    extract_bytes_from_parts env (p :: rest) = extract_bytes_from_parts env rest := by
  simp [extract_bytes_from_parts, h]

/-- Witness for C4: dropping the concrete transiently-failing part from a
singleton scan yields the empty scan's result. -/
theorem C4_erroring_part_skipped_witness :
    extract_bytes_from_parts c4env [c4p1] = none :=
  (C4_erroring_part_skipped c4env c4p1 []
    (UpstreamError.upstreamUnavailable
      ("Upstream URL fetch failed: " ++ toString 503)) rfl).trans rfl

end VirtualAI
